import Mathlib

/-!
Shallow embedding of `src/scanpy/tools/_marker_gene_overlap.py`.

Gene names are strings; a Python `set` of gene names is a `Finset String`.
Python dicts appear only with string keys and in insertion order, so they are
embedded as association lists `List (String × _)`.  Python's `int` division
`a / b` (true division) on the small non-negative integers occurring here is
exact, so it is embedded as division in `ℚ`; a `ZeroDivisionError` is made
explicit as `Option`/an error value.  numpy `nan_to_num` on the normalized
count matrices only ever has to turn the `0/0 = NaN` cells of an all-zero
row/column into `0`, which coincides with `ℚ`'s `x / 0 = 0` convention, so
row/column normalization is embedded directly with `ℚ` division.
-/

namespace MarkerGeneOverlap

/-- Value stored in a `reference_markers` dict: either a Python `set`
(the only type accepted by the `isinstance(val, set)` validation) or
some other Python value, whose content is irrelevant to the control flow. -/
inductive MarkerVal where
  | set : Finset String → MarkerVal
  | notSet : MarkerVal
  deriving DecidableEq

/-- Check mirroring `isinstance(val, set)`. -/
def MarkerVal.isSet : MarkerVal → Bool
  | .set _ => true
  | .notSet => false

/-- Underlying set of a validated marker value.  Only reached after the
`isinstance(val, set)` validation has passed, so the `.notSet` arm is dead
code (Python would have raised before ever computing with such a value). -/
def MarkerVal.toSet : MarkerVal → Finset String
  | .set s => s
  | .notSet => ∅

/-- One group of a `rank_genes_groups` record array: the column of gene
names (best first) and the parallel column of adjusted p-values. -/
structure RankedCluster where
  id : String
  names : List String
  pvals : List ℚ
  deriving DecidableEq

/-- The `adata.uns[key]` structure used by `marker_gene_overlap`:
`shape0` is `adata.uns[key]['names'].shape[0]` (the common column length)
and `clusters` lists the groups in `dtype.names` order. -/
structure RankedMarkers where
  shape0 : ℕ
  clusters : List RankedCluster
  deriving DecidableEq

/-- A value of `adata.uns`: either a `rank_genes_groups` result or the
stored output DataFrame (row labels, column labels, values). -/
inductive UnsVal where
  | ranked : RankedMarkers → UnsVal
  | df : List String → List String → List (List ℚ) → UnsVal
  deriving DecidableEq

/-- The `adata.uns` mapping, in insertion order. -/
abbrev Uns := List (String × UnsVal)

/-- Dict membership / item access on `adata.uns`. -/
def unsLookup : Uns → String → Option UnsVal
  | [], _ => none
  | (k, v) :: rest, key => if k = key then some v else unsLookup rest key

/-- Dict assignment `adata.uns[key_added] = value`: replace an existing
key in place, otherwise append. -/
def unsInsert : Uns → String → UnsVal → Uns
  | [], key, v => [(key, v)]
  | (k, w) :: rest, key, v =>
    if k = key then (key, v) :: rest else (k, w) :: unsInsert rest key v

/-- Exceptions raised by `marker_gene_overlap` (all `ValueError`s except the
last three, which are runtime faults of the computation phase). -/
inductive Err where
  | keyNotFound        -- `raise ValueError()` when `key not in adata.uns`
  | invalidMethod      -- "Method must be one of ..."
  | invalidNormalize   -- "Normalize must be one of ..."
  | normalizeNonCount  -- "Can only normalize with method=`overlap_count`."
  | referenceNotSets   -- "Please ensure that `reference_markers` contains sets ..."
  | typeError          -- `adata.uns[key]` is not a rank_genes_groups record
  | zeroDivision       -- ZeroDivisionError inside `_calc_jaccard`
  | unboundLocal       -- UnboundLocalError: `marker_match` never assigned
  deriving DecidableEq

/-- Non-fatal warnings logged via `logg.warn`. -/
inductive Warning where
  | pvalBelow0
  | pvalAbove1
  | bothSupplied
  | topNBelow1
  deriving DecidableEq

/-- Keyword arguments of `marker_gene_overlap` (defaults are supplied by
callers of the embedding). -/
structure Args where
  key : String
  method : Option String
  normalize : Option String
  topN : Option ℤ
  pvalT : Option ℚ
  keyAdded : String
  deriving DecidableEq

/-- Embeds `_calc_overlap_count`: rows over `markers1`, columns over
`markers2`, each cell `len(markers2[i].intersection(markers1[marker_group]))`. -/
def calcOverlapCount (markers1 markers2 : List (String × Finset String)) :
    List (List ℕ) :=
  markers1.map fun g1 => markers2.map fun g2 => (g2.2 ∩ g1.2).card

/-- One cell of `_calc_overlap_coef`:
`len(d.intersection(r)) / max(min(len(d), len(r)), 1)`. -/
def overlapCoefCell (d r : Finset String) : ℚ :=
  ((d ∩ r).card : ℚ) / ((max (min d.card r.card) 1 : ℕ) : ℚ)

/-- Embeds `_calc_overlap_coef`. -/
def calcOverlapCoef (markers1 markers2 : List (String × Finset String)) :
    List (List ℚ) :=
  markers1.map fun g1 => markers2.map fun g2 => overlapCoefCell g2.2 g1.2

/-- One cell of `_calc_jaccard`: `len(d.intersection(r)) / len(d.union(r))`.
`none` is the `ZeroDivisionError` Python raises when the union is empty. -/
def jaccardCell (d r : Finset String) : Option ℚ :=
  if (d ∪ r).card = 0 then none
  else some (((d ∩ r).card : ℚ) / (((d ∪ r).card : ℕ) : ℚ))

/-- Embeds `_calc_jaccard`; `none` when any cell raises `ZeroDivisionError`. -/
def calcJaccard (markers1 markers2 : List (String × Finset String)) :
    Option (List (List ℚ)) :=
  markers1.mapM fun g1 => markers2.mapM fun g2 => jaccardCell g2.2 g1.2

/-- One row of `marker_match / marker_match.sum(1)[:, np.newaxis]` followed by
`np.nan_to_num`: on an all-zero row every cell is `0/0 = NaN`, coerced to `0`,
which is exactly `ℚ`'s `x / 0 = 0` here since the numerators are then `0`. -/
def normalizeRow (r : List ℕ) : List ℚ :=
  r.map fun x : ℕ => (x : ℚ) / ((r.sum : ℕ) : ℚ)

/-- Row normalization of the whole count matrix (`normalize == 'reference'`). -/
def normalizeRows (m : List (List ℕ)) : List (List ℚ) :=
  m.map normalizeRow

/-- Elementwise sum of two rows, as `marker_match.sum(0)` accumulates. -/
def addVec : List ℕ → List ℕ → List ℕ
  | [], ys => ys
  | xs, [] => xs
  | x :: xs, y :: ys => (x + y) :: addVec xs ys

/-- Column sums `marker_match.sum(0)`. -/
def colSums (m : List (List ℕ)) : List ℕ :=
  m.foldr addVec []

/-- Column normalization `marker_match / marker_match.sum(0)` followed by
`np.nan_to_num` (`normalize == 'data'`); the `NaN → 0` coercion again
coincides with `ℚ`'s division-by-zero convention. -/
def normalizeCols (m : List (List ℕ)) : List (List ℚ) :=
  m.map fun row => List.zipWith (fun (x s : ℕ) => (x : ℚ) / (s : ℚ)) row (colSums m)

/-- The set of methods accepted by the validation block:
`avail_methods = {'overlap_count', 'overlap_coef', 'jaccard', 'enrich'}`
(`method` is `Optional[str]`, and `None` is not a member). -/
def availMethods : List (Option String) :=
  [some "overlap_count", some "overlap_coef", some "jaccard", some "enrich"]

/-- The coercion `if normalize == 'None': normalize = None`. -/
def coerceNormalize (n : Option String) : Option String :=
  if n = some "None" then none else n

/-- The validation block of `marker_gene_overlap`, in source order: key
membership, method, normalize (after the `'None'` coercion), the
normalize/method combination, and the reference values being sets.
Returns the coerced `normalize` value used by the rest of the function. -/
def validate (args : Args) (referenceMarkers : List (String × MarkerVal))
    (uns : Uns) : Except Err (Option String) :=
  if unsLookup uns args.key = none then .error .keyNotFound
  else if args.method ∉ availMethods then .error .invalidMethod
  else
    let norm := coerceNormalize args.normalize
    if norm ∉ [some "reference", some "data", none] then .error .invalidNormalize
    else if norm ≠ none ∧ args.method ≠ some "overlap_count" then
      .error .normalizeNonCount
    else if ¬ referenceMarkers.all (fun kv => kv.2.isSet) then
      .error .referenceNotSets
    else .ok norm

/-- The warning/clamping block: `adj_pval_threshold` below 0 is set to 0 and
above 1 is set to 1 (the second check runs on the already-clamped value, so at
most one of the two fires); a warning notes when `top_n_markers` is also set;
`top_n_markers` below 1 is set to 1.  Returns the clamped `top_n_markers`,
the clamped `adj_pval_threshold`, and the warnings in emission order. -/
def clampParams (topN : Option ℤ) (pvalT : Option ℚ) :
    Option ℤ × Option ℚ × List Warning :=
  let pw : Option ℚ × List Warning :=
    match pvalT with
    | none => (none, [])
    | some t =>
      (some (if t < 0 then 0 else if t > 1 then 1 else t),
       (if t < 0 then [Warning.pvalBelow0]
        else if t > 1 then [Warning.pvalAbove1] else [])
         ++ (if topN.isSome then [Warning.bothSupplied] else []))
  let nw : Option ℤ × List Warning :=
    match topN with
    | none => (none, [])
    | some n =>
      (some (if n < 1 then 1 else n),
       if n < 1 then [Warning.topNBelow1] else [])
  (nw.1, pw.1, pw.2 ++ nw.2)

/-- The per-cluster branch of the data-marker loop: the `top_n_markers`
branch takes `min(top_n_markers, shape[0])` leading names; the
`adj_pval_threshold` branch counts how many adjusted p-values in the whole
column are strictly below the threshold and takes that many leading names;
otherwise all names are taken.  `set(...)` is `List.toFinset`. -/
def selectCluster (shape0 : ℕ) (topN : Option ℤ) (pvalT : Option ℚ)
    (c : RankedCluster) : Finset String :=
  match topN with
  | some n => (c.names.take (min n (shape0 : ℤ)).toNat).toFinset
  | none =>
    match pvalT with
    | some t =>
      (c.names.take (c.pvals.countP (fun p => decide (p < t)))).toFinset
    | none => c.names.toFinset

/-- The `if method == ... / elif ...` dispatch producing `marker_match`,
including the row/column normalization applied to the count matrix.  The
`'enrich'` case assigns nothing, so the later `pd.DataFrame(marker_match, ...)`
raises `UnboundLocalError`. -/
def computeMatrix (method norm : Option String)
    (refSets dataMarkers : List (String × Finset String)) :
    Except Err (List (List ℚ)) :=
  if method = some "overlap_count" then
    let counts := calcOverlapCount refSets dataMarkers
    if norm = some "reference" then .ok (normalizeRows counts)
    else if norm = some "data" then .ok (normalizeCols counts)
    else .ok (counts.map fun row => row.map fun x => (x : ℚ))
  else if method = some "overlap_coef" then
    .ok (calcOverlapCoef refSets dataMarkers)
  else if method = some "jaccard" then
    match calcJaccard refSets dataMarkers with
    | some m => .ok m
    | none => .error .zeroDivision
  else .error .unboundLocal

/-- The computation phase after parameter clamping: build the data-marker
sets, compute `marker_match`, and store the labeled DataFrame under
`key_added`.  Returns the updated `adata.uns` together with the raised
exception, if any; warnings are assembled by `afterValidate`. -/
def afterClamp (args : Args) (norm : Option String)
    (referenceMarkers : List (String × MarkerVal)) (uns : Uns)
    (topN : Option ℤ) (pvalT : Option ℚ) : Uns × Option Err :=
  match unsLookup uns args.key with
  | some (.ranked r) =>
    let dataMarkers : List (String × Finset String) :=
      r.clusters.map fun c => (c.id, selectCluster r.shape0 topN pvalT c)
    let refSets : List (String × Finset String) :=
      referenceMarkers.map fun kv => (kv.1, kv.2.toSet)
    match computeMatrix args.method norm refSets dataMarkers with
    | .error e => (uns, some e)
    | .ok m =>
      let markerGroups := referenceMarkers.map Prod.fst
      let clusters := r.clusters.map RankedCluster.id
      (unsInsert uns args.keyAdded (.df markerGroups clusters m), none)
  | _ => (uns, some .typeError)

/-- Everything after validation: clamp parameters (emitting warnings), then
run the computation phase. -/
def afterValidate (args : Args)
    (norm : Option String) (referenceMarkers : List (String × MarkerVal))
    (uns : Uns) : Uns × List Warning × Option Err :=
  let cp := clampParams args.topN args.pvalT
  let r := afterClamp args norm referenceMarkers uns cp.1 cp.2.1
  (r.1, cp.2.2, r.2)

/-- Embeds `marker_gene_overlap`: validation first (an error there leaves
`adata.uns` untouched and emits no warning), then the computation phase.
The result is the final `adata.uns`, the warnings logged, and the exception
raised, if any. -/
def marker_gene_overlap (args : Args)
    (referenceMarkers : List (String × MarkerVal)) (uns : Uns) :
    Uns × List Warning × Option Err :=
  match validate args referenceMarkers uns with
  | .error e => (uns, [], some e)
  | .ok norm => afterValidate args norm referenceMarkers uns

/-! ### Helper lemmas -/

lemma card_inter_le_min (d r : Finset String) :
    (d ∩ r).card ≤ min d.card r.card :=
  le_min (Finset.card_le_card Finset.inter_subset_left)
    (Finset.card_le_card Finset.inter_subset_right)

lemma overlapCoefCell_denom_pos (d r : Finset String) :
    (0 : ℚ) < ((max (min d.card r.card) 1 : ℕ) : ℚ) := by
  exact_mod_cast Nat.lt_of_lt_of_le Nat.zero_lt_one (le_max_right _ 1)

lemma sum_map_castDiv (r : List ℕ) (s : ℚ) :
    (r.map fun x : ℕ => (x : ℚ) / s).sum = ((r.sum : ℕ) : ℚ) / s := by
  induction r with
  | nil => simp
  | cons a l ih => simp [ih, add_div]

/-! ### Claim theorems -/

/-- C5: `_calc_overlap_coef`'s cell value equals
`|R ∩ D| / max(min(|R|,|D|), 1)`, lies in `[0,1]`, and is `0` (not a division
error) when either set is empty. -/
theorem overlapCoefCell_spec (R D : Finset String) :
    overlapCoefCell D R
        = ((R ∩ D).card : ℚ) / ((max (min R.card D.card) 1 : ℕ) : ℚ)
      ∧ 0 ≤ overlapCoefCell D R
      ∧ overlapCoefCell D R ≤ 1
      ∧ ((R = ∅ ∨ D = ∅) → overlapCoefCell D R = 0) := by
  refine ⟨by rw [overlapCoefCell, Finset.inter_comm, min_comm], ?_, ?_, ?_⟩
  · exact div_nonneg (Nat.cast_nonneg _) (Nat.cast_nonneg _)
  · rw [overlapCoefCell, div_le_one (overlapCoefCell_denom_pos D R)]
    exact_mod_cast le_trans (card_inter_le_min D R) (le_max_left _ 1)
  · rintro (rfl | rfl) <;>
      simp [overlapCoefCell]

/-- Witness for C5 at a concrete empty reference set. -/
theorem overlapCoefCell_spec_witness :
    overlapCoefCell (∅ : Finset String) ({"a"} : Finset String) = 0 :=
  (overlapCoefCell_spec {"a"} ∅).2.2.2 (Or.inr rfl)

/-- C8: whenever `_calc_jaccard`'s cell is defined (the union is non-empty,
i.e. no `ZeroDivisionError`), its value is at most `_calc_overlap_coef`'s
cell on the same pair of sets. -/
theorem jaccardCell_le_overlapCoefCell (R D : Finset String) (q : ℚ)
    (h : jaccardCell D R = some q) : q ≤ overlapCoefCell D R := by
  rw [jaccardCell] at h
  split at h
  · exact absurd h (by simp)
  · rename_i hne
    obtain rfl : ((D ∩ R).card : ℚ) / (((D ∪ R).card : ℕ) : ℚ) = q :=
      Option.some_injective _ h
    rw [overlapCoefCell]
    have hm : max (min D.card R.card) 1 ≤ (D ∪ R).card :=
      max_le (le_trans (min_le_left _ _)
          (Finset.card_le_card Finset.subset_union_left))
        (Nat.one_le_iff_ne_zero.mpr hne)
    gcongr

/-- Witness for C8 on `R = {"a","b"}`, `D = {"a"}`. -/
theorem jaccardCell_le_overlapCoefCell_witness :
    (1 / 2 : ℚ) ≤ overlapCoefCell ({"a"} : Finset String) {"a", "b"} :=
  jaccardCell_le_overlapCoefCell {"a", "b"} {"a"} (1 / 2) rfl

/-! ### Concrete fixtures -/

/-- A well-formed `rank_genes_groups` result with two clusters. -/
def unsEx : Uns :=
  [("rank_genes_groups",
    .ranked ⟨2, [⟨"0", ["g1", "g2"], [0, 1/2]⟩, ⟨"1", ["g2", "g3"], [0, 0]⟩]⟩)]

/-- A `rank_genes_groups` result whose single cluster has no genes. -/
def unsEmptyEx : Uns :=
  [("rank_genes_groups", .ranked ⟨0, [⟨"0", [], []⟩]⟩)]

/-- A well-formed reference marker dictionary. -/
def refEx : List (String × MarkerVal) :=
  [("T", .set {"g1", "g4"}), ("B", .set {"g3"})]

/-- The default keyword arguments of `marker_gene_overlap`. -/
def argsEx : Args :=
  ⟨"rank_genes_groups", some "overlap_count", none, none, none,
   "marker_gene_overlap"⟩

/-- C1: the method `'enrich'` is not one of the three supported metrics, yet
the validation block accepts it (no `ValueError`); the call then fails with
`UnboundLocalError` when building the DataFrame, after marker selection. -/
theorem enrich_bypasses_validation :
    validate { argsEx with method := some "enrich" } refEx unsEx
        = .ok none
      ∧ marker_gene_overlap { argsEx with method := some "enrich" } refEx unsEx
        = (unsEx, [], some Err.unboundLocal) :=
  ⟨rfl, rfl⟩

/-- C2: on two empty gene sets `_calc_jaccard` divides by zero
(`ZeroDivisionError`, embedded as `none`), and the fault propagates out of
`marker_gene_overlap` uncaught. -/
theorem jaccard_empty_raises :
    jaccardCell (∅ : Finset String) (∅ : Finset String) = none
      ∧ marker_gene_overlap { argsEx with method := some "jaccard" }
          [("T", .set ∅)] unsEmptyEx
        = (unsEmptyEx, [], some Err.zeroDivision) :=
  ⟨rfl, rfl⟩

/-- Row-membership form of C4, proved for any count matrix. -/
lemma normalizeRows_mem (m : List (List ℕ)) (r' : List ℚ)
    (h : r' ∈ normalizeRows m) :
    ∃ r ∈ m, r' = normalizeRow r
      ∧ (r.sum = 0 → ∀ y ∈ r', y = 0)
      ∧ (r.sum ≠ 0 → r'.sum = 1) := by
  rw [normalizeRows] at h
  obtain ⟨r, hr, rfl⟩ := List.mem_map.mp h
  refine ⟨r, hr, rfl, ?_, ?_⟩
  · intro hs y hy
    rw [normalizeRow] at hy
    obtain ⟨x, hx, rfl⟩ := List.mem_map.mp hy
    have hx0 : x = 0 := by
      have := List.sum_eq_zero_iff.mp hs x hx
      exact this
    simp [hx0]
  · intro hs
    rw [normalizeRow, sum_map_castDiv]
    exact div_self (Nat.cast_ne_zero.mpr hs)

/-- C4: every row of the `normalize == 'reference'` output of an
overlap-count matrix is the division of a pre-normalization row by its sum;
a row whose pre-normalization sum is zero is all-zero (the `nan_to_num`
coercion), and a row with a non-zero entry sums to `1`. -/
theorem normalizeRows_overlapCount_spec
    (ref data : List (String × Finset String)) (r' : List ℚ)
    (h : r' ∈ normalizeRows (calcOverlapCount ref data)) :
    ∃ r ∈ calcOverlapCount ref data, r' = normalizeRow r
      ∧ (r.sum = 0 → ∀ y ∈ r', y = 0)
      ∧ (r.sum ≠ 0 → r'.sum = 1) :=
  normalizeRows_mem _ _ h

/-- Witness for C4 on a one-row matrix. -/
theorem normalizeRows_overlapCount_spec_witness :
    ∃ r ∈ calcOverlapCount [("T", (∅ : Finset String))] [], ([] : List ℚ) = normalizeRow r
      ∧ (r.sum = 0 → ∀ y ∈ ([] : List ℚ), y = 0)
      ∧ (r.sum ≠ 0 → ([] : List ℚ).sum = 1) :=
  normalizeRows_overlapCount_spec [("T", ∅)] [] [] (by decide)

/-- C7: the `adj_pval_threshold` branch clamps the threshold into `[0,1]`,
warning when it was outside; selection per cluster takes the prefix of names
whose length is the number of adjusted p-values strictly below the clamped
threshold, and a cluster where zero p-values pass gets the empty set. -/
theorem pval_threshold_spec (t : ℚ) (s : ℕ) (c : RankedCluster) :
    (clampParams none (some t)).2.1 = some (max 0 (min 1 t))
      ∧ (t < 0 → Warning.pvalBelow0 ∈ (clampParams none (some t)).2.2)
      ∧ (1 < t → Warning.pvalAbove1 ∈ (clampParams none (some t)).2.2)
      ∧ (∀ u : ℚ, selectCluster s none (some u) c
          = (c.names.take (c.pvals.countP fun p => decide (p < u))).toFinset)
      ∧ ((c.pvals.countP fun p => decide (p < t)) = 0
          → selectCluster s none (some t) c = ∅) := by
  refine ⟨?_, ?_, ?_, fun u => rfl, ?_⟩
  · simp only [clampParams]
    split_ifs with h1 h2
    · rw [min_eq_right (h1.trans one_pos).le, max_eq_left h1.le]
    · rw [min_eq_left h2.le, max_eq_right zero_le_one]
    · rw [min_eq_right (not_lt.mp h2), max_eq_right (not_lt.mp h1)]
  · intro h
    simp [clampParams, h]
  · intro h
    have h0 : ¬ t < 0 := not_lt.mpr (le_of_lt (lt_trans one_pos h))
    simp [clampParams, h0, h]
  · intro h
    simp [selectCluster, h]

/-- Witness for C7 at threshold `2` (above the legal range). -/
theorem pval_threshold_spec_witness :
    (clampParams none (some (2 : ℚ))).2.1 = some (max 0 (min 1 2))
      ∧ Warning.pvalAbove1 ∈ (clampParams none (some (2 : ℚ))).2.2
      ∧ selectCluster 1 none (some (2 : ℚ)) ⟨"0", ["g"], [5]⟩ = ∅ :=
  ⟨(pval_threshold_spec 2 1 ⟨"0", ["g"], [5]⟩).1,
   (pval_threshold_spec 2 1 ⟨"0", ["g"], [5]⟩).2.2.1 one_lt_two,
   (pval_threshold_spec 2 1 ⟨"0", ["g"], [5]⟩).2.2.2.2 (by decide)⟩

/-- C3: requesting a normalization (`'reference'` or `'data'`) with a method
other than `'overlap_count'` makes validation fail with a `ValueError`
(either the method check or the normalize/method-combination check), before
any marker selection or matrix computation, leaving `adata.uns` untouched. -/
theorem normalize_requires_count (args : Args)
    (ref : List (String × MarkerVal)) (uns : Uns)
    (hk : ¬ unsLookup uns args.key = none)
    (hn : args.normalize = some "reference" ∨ args.normalize = some "data")
    (hm : args.method ≠ some "overlap_count") :
    ∃ e, validate args ref uns = .error e
      ∧ (e = Err.invalidMethod ∨ e = Err.normalizeNonCount)
      ∧ marker_gene_overlap args ref uns = (uns, [], some e) := by
  have key : ∃ e, validate args ref uns = .error e
      ∧ (e = Err.invalidMethod ∨ e = Err.normalizeNonCount) := by
    by_cases hmem : args.method ∈ availMethods
    · refine ⟨Err.normalizeNonCount, ?_, Or.inr rfl⟩
      rw [validate, if_neg hk, if_neg (not_not_intro hmem)]
      rcases hn with h | h <;>
        simp [h, coerceNormalize, hm]
    · exact ⟨Err.invalidMethod, by rw [validate, if_neg hk, if_pos hmem],
        Or.inl rfl⟩
  obtain ⟨e, he, hor⟩ := key
  exact ⟨e, he, hor, by rw [marker_gene_overlap, he]⟩

/-- Arguments requesting row normalization of the Jaccard matrix. -/
def argsNormJacc : Args :=
  { argsEx with method := some "jaccard", normalize := some "reference" }

/-- Witness for C3: `method='jaccard'` with `normalize='reference'`. -/
theorem normalize_requires_count_witness :
    ∃ e, validate argsNormJacc refEx unsEx = .error e
      ∧ (e = Err.invalidMethod ∨ e = Err.normalizeNonCount)
      ∧ marker_gene_overlap argsNormJacc refEx unsEx = (unsEx, [], some e) :=
  normalize_requires_count _ refEx unsEx (by decide) (Or.inl rfl) (by decide)

/-- Case split on the computation phase, for C9: an exception leaves
`adata.uns` unchanged; only success writes, and only under `key_added`. -/
lemma afterClamp_cases (args : Args) (norm : Option String)
    (ref : List (String × MarkerVal)) (uns : Uns)
    (topN : Option ℤ) (pvalT : Option ℚ) :
    ((afterClamp args norm ref uns topN pvalT).2 ≠ none
        → (afterClamp args norm ref uns topN pvalT).1 = uns)
    ∧ ((afterClamp args norm ref uns topN pvalT).2 = none
        → ∃ d, (afterClamp args norm ref uns topN pvalT).1
            = unsInsert uns args.keyAdded d) := by
  rw [afterClamp]
  split
  · dsimp only
    split
    · simp
    · simp
  · simp

/-- C9: a failing invocation (any exception, validation or computation)
returns `adata.uns` unchanged; a successful one changes it only by storing a
DataFrame under `key_added`; and a validation error surfaces as-is, before
marker selection, matrix computation, or any warning is emitted. -/
theorem validation_precedes_write (args : Args)
    (ref : List (String × MarkerVal)) (uns : Uns) :
    ((marker_gene_overlap args ref uns).2.2 ≠ none
        → (marker_gene_overlap args ref uns).1 = uns)
    ∧ ((marker_gene_overlap args ref uns).2.2 = none
        → ∃ d, (marker_gene_overlap args ref uns).1
            = unsInsert uns args.keyAdded d)
    ∧ (∀ e, validate args ref uns = .error e
        → marker_gene_overlap args ref uns = (uns, [], some e)) := by
  cases hval : validate args ref uns with
  | error e =>
    refine ⟨?_, ?_, ?_⟩
    · intro _
      rw [marker_gene_overlap, hval]
    · intro hc
      rw [marker_gene_overlap, hval] at hc
      simp at hc
    · intro e' he'
      injection he' with h
      rw [marker_gene_overlap, hval, h]
  | ok norm =>
    have hm : marker_gene_overlap args ref uns
        = ((afterClamp args norm ref uns (clampParams args.topN args.pvalT).1
              (clampParams args.topN args.pvalT).2.1).1,
           (clampParams args.topN args.pvalT).2.2,
           (afterClamp args norm ref uns (clampParams args.topN args.pvalT).1
              (clampParams args.topN args.pvalT).2.1).2) := by
      rw [marker_gene_overlap, hval]
      rfl
    have h := afterClamp_cases args norm ref uns
      (clampParams args.topN args.pvalT).1 (clampParams args.topN args.pvalT).2.1
    refine ⟨?_, ?_, ?_⟩
    · intro hne
      rw [hm] at hne ⊢
      exact h.1 hne
    · intro he
      rw [hm] at he ⊢
      exact h.2 he
    · intro e' he'
      exact absurd he' (by simp)

/-- Witness for C9: an invalid method leaves `adata.uns` unchanged. -/
theorem validation_precedes_write_witness :
    (marker_gene_overlap { argsEx with method := some "bogus" } refEx unsEx).1
        = unsEx
      ∧ marker_gene_overlap { argsEx with method := some "bogus" } refEx unsEx
        = (unsEx, [], some Err.invalidMethod) :=
  ⟨(validation_precedes_write _ refEx unsEx).1 (by decide),
   (validation_precedes_write _ refEx unsEx).2.2 Err.invalidMethod rfl⟩

/-- C6: when both `top_n_markers` and `adj_pval_threshold` are supplied, the
threshold changes neither the stored output nor the raised exception (the
top-n branch wins for every cluster), and the warning that the threshold is
ignored is recorded (a warning, never an error). -/
theorem topN_overrides_pval (args : Args) (ref : List (String × MarkerVal))
    (uns : Uns) (n : ℤ) (t : ℚ)
    (hn : args.topN = some n) (ht : args.pvalT = some t) :
    ((marker_gene_overlap args ref uns).1
        = (marker_gene_overlap { args with pvalT := none } ref uns).1)
    ∧ ((marker_gene_overlap args ref uns).2.2
        = (marker_gene_overlap { args with pvalT := none } ref uns).2.2)
    ∧ Warning.bothSupplied ∈ (clampParams args.topN args.pvalT).2.2 := by
  have hv : validate { args with pvalT := none } ref uns
      = validate args ref uns := rfl
  refine ⟨?_, ?_, ?_⟩
  · rw [marker_gene_overlap, marker_gene_overlap, hv]
    cases hval : validate args ref uns with
    | error e => rfl
    | ok norm =>
      dsimp only [afterValidate]
      rw [hn, ht]
      rfl
  · rw [marker_gene_overlap, marker_gene_overlap, hv]
    cases hval : validate args ref uns with
    | error e => rfl
    | ok norm =>
      dsimp only [afterValidate]
      rw [hn, ht]
      rfl
  · rw [hn, ht]
    simp [clampParams]

/-- Witness for C6 at `top_n_markers=1`, `adj_pval_threshold=1/4`. -/
theorem topN_overrides_pval_witness :
    ((marker_gene_overlap { argsEx with topN := some 1, pvalT := some (1/4) }
          refEx unsEx).1
        = (marker_gene_overlap { argsEx with topN := some 1, pvalT := none }
            refEx unsEx).1)
    ∧ ((marker_gene_overlap { argsEx with topN := some 1, pvalT := some (1/4) }
          refEx unsEx).2.2
        = (marker_gene_overlap { argsEx with topN := some 1, pvalT := none }
            refEx unsEx).2.2)
    ∧ Warning.bothSupplied ∈ (clampParams (some 1) (some (1/4))).2.2 :=
  topN_overrides_pval _ refEx unsEx 1 (1/4) rfl rfl

/-- C10: the literal string `'None'` for `normalize` is coerced to the
Python value `None` before the normalize validation, so the whole invocation
behaves identically to passing `None`. -/
theorem normalize_none_string (args : Args) (ref : List (String × MarkerVal))
    (uns : Uns) (h : args.normalize = some "None") :
    marker_gene_overlap args ref uns
      = marker_gene_overlap { args with normalize := none } ref uns := by
  have hv : validate args ref uns
      = validate { args with normalize := none } ref uns := by
    simp [validate, coerceNormalize, h]
  rw [marker_gene_overlap, marker_gene_overlap, hv]
  cases hval : validate { args with normalize := none } ref uns with
  | error e => rfl
  | ok norm => rfl

/-- Witness for C10 on the default arguments. -/
theorem normalize_none_string_witness :
    marker_gene_overlap { argsEx with normalize := some "None" } refEx unsEx
      = marker_gene_overlap { argsEx with normalize := none } refEx unsEx :=
  normalize_none_string _ refEx unsEx rfl

end MarkerGeneOverlap
